import Mathlib

/-!
Verification of the quonitor core against its specification.

Shallow embedding of the Rust sources under src-tauri/src:
- providers/mod.rs : QuotaData, ModelData
- db/models.rs     : Account, QuotaSnapshot, ModelUsage, NotificationState, Credentials
- error.rs         : QuonitorError
- services/notifier.rs   : Notifier (threshold / debounce engine)
- services/aggregator.rs : Aggregator (fetch, persist, batch isolation)
- crypto.rs        : CryptoService (AEAD wrapper with a fixed zero nonce)

Rust i64 timestamps are modelled as Int, u32 hours as Nat.  The f64 usage
percentage of notifier.rs is modelled as an exact rational; every concrete
percentage appearing in the claims (95, 96) is exactly representable in f64
and the f64 computation at those inputs yields the same value, so the
rational model is faithful where the claims evaluate it.
-/

namespace Quonitor

/-- Error taxonomy of error.rs (payloads collapsed to the message string). -/
inductive QuonitorError where
  | Database (msg : String)
  | Provider (msg : String)
  | Auth (msg : String)
  | Encryption (msg : String)
  | Network (msg : String)
  | Serialization (msg : String)
  | Io (msg : String)
  | Config (msg : String)
  deriving Repr, DecidableEq

/-- providers/mod.rs ModelData: per-model slice of a quota result. -/
structure ModelData where
  model_name : String
  tokens_input : Int
  tokens_output : Int
  cost_usd : ℚ
  request_count : Int
  deriving Repr, DecidableEq

/-- providers/mod.rs QuotaData: the ephemeral provider-fetch result. -/
structure QuotaData where
  account_id : String
  timestamp : Int
  tokens_input : Option Int
  tokens_output : Option Int
  cost_usd : Option ℚ
  quota_limit : Option Int
  quota_remaining : Option Int
  model_breakdown : List ModelData
  metadata : Option String
  deriving Repr, DecidableEq

/-- db/models.rs NotificationState: per-account last-notified stamps. -/
structure NotificationState where
  account_id : String
  last_75_percent_notified : Option Int
  last_90_percent_notified : Option Int
  last_95_percent_notified : Option Int
  deriving Repr, DecidableEq

/-- The three severity tiers of notifier.rs (75 / 90 / 95 percent). -/
inductive Tier where
  | t75
  | t90
  | t95
  deriving Repr, DecidableEq

/-- notifier.rs Notifier::calculate_usage_percentage.
If both quota_limit and quota_remaining are present and limit > 0,
returns (limit - remaining) / limit * 100; otherwise None.
(Rust computes in f64; modelled exactly in ℚ.) -/
def calculate_usage_percentage (quota : QuotaData) : Option ℚ :=
  match quota.quota_limit, quota.quota_remaining with
  | some limit, some remaining =>
      if limit > 0 then
        let used := limit - remaining
        some ((used : ℚ) / (limit : ℚ) * 100)
      else
        none
  | _, _ => none

/-- notifier.rs Notifier::should_notify_threshold: notify when the tier was
never notified, or its stamp is strictly older than the threshold instant. -/
def should_notify_threshold (last_notified : Option Int) (threshold : Int) : Bool :=
  match last_notified with
  | some time => time < threshold
  | none => true

/-- The hour prefix parse of notifier.rs is_quiet_hours:
take the segment before the first colon and parse it as an unsigned decimal
integer (Rust: s.split(colon).next().and_then(parse u32)); the parse fails
on an empty segment or any non-digit character.  Rust u32 parsing also
tolerates a leading plus sign and bounds the value below 2^32; neither
difference is reachable by the claims, which use plain decimal hours. -/
def parse_hour (s : String) : Option Nat :=
  let head := s.data.takeWhile (fun c => c ≠ ':')
  if head.isEmpty then none
  else if head.all Char.isDigit then
    some (head.foldl (fun n c => n * 10 + (c.toNat - 48)) 0)
  else none

/-- notifier.rs Notifier::is_quiet_hours, with the two settings reads and the
local clock made explicit arguments.  Returns true iff the current local hour
falls inside the configured window; any absent, empty or unparsable setting
yields false. -/
def is_quiet_hours (quiet_start quiet_end : Option String) (current_hour : Nat) : Bool :=
  match quiet_start, quiet_end with
  | some s, some e =>
      if s ≠ "" ∧ e ≠ "" then
        match parse_hour s, parse_hour e with
        | some start_hour, some end_hour =>
            if start_hour < end_hour then
              decide (current_hour ≥ start_hour ∧ current_hour < end_hour)
            else
              decide (current_hour ≥ start_hour ∨ current_hour < end_hour)
        | _, _ => false
      else false
  | _, _ => false

/-- The environment a single check_and_notify call reads: the two repository
settings lookups, the local wall-clock hour, the UTC timestamp taken at line
49 of notifier.rs, and the stored notification state for the account. -/
structure NotifierEnv where
  notifications_enabled : Option String
  quiet_hours_start : Option String
  quiet_hours_end : Option String
  current_hour : Nat
  now : Int
  stored_state : Option NotificationState
  deriving Repr

/-- Observable outcome of one check_and_notify call: which tier (if any) had
its notification sent and stamp transitioned, and the notification-state row
written back by update_notification_state (none when the call returned before
reaching the persistence at line 87). -/
structure NotifyResult where
  fired : Option Tier
  persisted : Option NotificationState
  deriving Repr, DecidableEq

/-- notifier.rs lines 41-47: the notification state the check works on, the
stored row or a freshly defaulted one. -/
def initial_state (env : NotifierEnv) (quota : QuotaData) : NotificationState :=
  env.stored_state.getD
    { account_id := quota.account_id
      last_75_percent_notified := none
      last_90_percent_notified := none
      last_95_percent_notified := none }

/-- notifier.rs Notifier::check_and_notify (lines 18-90).  Notification
delivery failures are swallowed inside send_notification, so sending never
alters control flow and is represented by the fired field alone. -/
def check_and_notify (env : NotifierEnv) (quota : QuotaData) : NotifyResult :=
  let enabled := env.notifications_enabled.getD "true"
  if enabled ≠ "true" then
    { fired := none, persisted := none }
  else if is_quiet_hours env.quiet_hours_start env.quiet_hours_end env.current_hour then
    { fired := none, persisted := none }
  else
    match calculate_usage_percentage quota with
    | none => { fired := none, persisted := none }
    | some percentage =>
        let state := initial_state env quota
        let now := env.now
        let one_day_ago := now - 86400
        if percentage ≥ 95 ∧
            should_notify_threshold state.last_95_percent_notified one_day_ago then
          { fired := some Tier.t95
            persisted := some { state with last_95_percent_notified := some now } }
        else if percentage ≥ 90 ∧
            should_notify_threshold state.last_90_percent_notified one_day_ago then
          { fired := some Tier.t90
            persisted := some { state with last_90_percent_notified := some now } }
        else if percentage ≥ 75 ∧
            should_notify_threshold state.last_75_percent_notified one_day_ago then
          { fired := some Tier.t75
            persisted := some { state with last_75_percent_notified := some now } }
        else
          { fired := none, persisted := some state }

/-- Which tier the cascade of notifier.rs lines 52-84 fires for a given
percentage, working state and check time: the highest tier whose threshold
the percentage meets and whose debounce window has passed. -/
def fired_tier (p : ℚ) (s : NotificationState) (now : Int) : Option Tier :=
  if p ≥ 95 ∧ should_notify_threshold s.last_95_percent_notified (now - 86400) then
    some Tier.t95
  else if p ≥ 90 ∧ should_notify_threshold s.last_90_percent_notified (now - 86400) then
    some Tier.t90
  else if p ≥ 75 ∧ should_notify_threshold s.last_75_percent_notified (now - 86400) then
    some Tier.t75
  else
    none

/-- Stamp the last-notified field of the fired tier to the check time, leaving
the other two fields (and everything else) unchanged. -/
def stamp_tier : Option Tier → Int → NotificationState → NotificationState
  | none, _, s => s
  | some Tier.t95, t, s => { s with last_95_percent_notified := some t }
  | some Tier.t90, t, s => { s with last_90_percent_notified := some t }
  | some Tier.t75, t, s => { s with last_75_percent_notified := some t }

/-! ## crypto.rs -/

/-- crypto.rs NONCE_SIZE. -/
def NONCE_SIZE : Nat := 12

/-- The hard-coded nonce of CryptoService::encrypt / decrypt:
twelve zero bytes (crypto.rs lines 81 and 91). -/
def zero_nonce : List Nat := List.replicate NONCE_SIZE 0

/-- Abstract model of the external primitives CryptoService delegates to:
the AEAD of the aes_gcm crate (Aes256Gcm under the fixed process key, so the key
does not appear as an argument) and the UTF-8 codec of the Rust standard library.
The four laws are the documented contracts of those libraries: an AEAD
decrypts its own output, authenticates (only genuine ciphertexts decrypt,
and to the plaintext that produced them), and UTF-8 encoding round-trips
with decoding (valid UTF-8 byte sequences are in bijection with strings). -/
structure CryptoModel where
  aead_encrypt : List Nat → List Nat → Option (List Nat)
  aead_decrypt : List Nat → List Nat → Option (List Nat)
  utf8_encode : String → List Nat
  utf8_decode : List Nat → Option String
  aead_enc_dec : ∀ n p c, aead_encrypt n p = some c → aead_decrypt n c = some p
  aead_dec_enc : ∀ n c p, aead_decrypt n c = some p → aead_encrypt n p = some c
  utf8_round : ∀ s, utf8_decode (utf8_encode s) = some s
  utf8_decode_encode : ∀ l s, utf8_decode l = some s → utf8_encode s = l

/-- crypto.rs CryptoService::encrypt (lines 80-88): encrypt the UTF-8 bytes
of the plaintext under the fixed all-zero nonce; an AEAD failure maps to the
Encryption error variant. -/
def CryptoService.encrypt (m : CryptoModel) (data : String) :
    Except QuonitorError (List Nat) :=
  match m.aead_encrypt zero_nonce (m.utf8_encode data) with
  | some ciphertext => .ok ciphertext
  | none => .error (.Encryption "Encryption failed")

/-- crypto.rs CryptoService::decrypt (lines 90-99): decrypt under the same
all-zero nonce, then re-validate UTF-8; both failure modes map to the
Encryption error variant. -/
def CryptoService.decrypt (m : CryptoModel) (encrypted_data : List Nat) :
    Except QuonitorError String :=
  match m.aead_decrypt zero_nonce encrypted_data with
  | none => .error (.Encryption "Decryption failed")
  | some plaintext =>
      match m.utf8_decode plaintext with
      | some s => .ok s
      | none => .error (.Encryption "Invalid UTF-8")

/-- One invocation of CryptoService::encrypt, with the fresh randomness the
process could have drawn for that invocation made explicit.  The source
draws none (the nonce is the constant zero_nonce), so the argument is
ignored; a random-nonce scheme would consume it. -/
def encrypt_invocation (m : CryptoModel) (_fresh_randomness : List Nat)
    (data : String) : Except QuonitorError (List Nat) :=
  CryptoService.encrypt m data

/-! ## db/models.rs and the durable store -/

/-- db/models.rs Account. -/
structure Account where
  id : String
  provider : String
  name : String
  credentials_encrypted : List Nat
  created_at : Int
  last_synced : Option Int
  deriving Repr, DecidableEq

/-- db/models.rs Credentials. -/
structure Credentials where
  api_key : Option String
  oauth_token : Option String
  oauth_refresh_token : Option String
  deriving Repr, DecidableEq

/-- db/models.rs QuotaSnapshot. -/
structure QuotaSnapshot where
  id : Option Int
  account_id : String
  timestamp : Int
  tokens_input : Option Int
  tokens_output : Option Int
  cost_usd : Option ℚ
  quota_limit : Option Int
  quota_remaining : Option Int
  metadata : Option String
  deriving Repr, DecidableEq

/-- db/models.rs ModelUsage. -/
structure ModelUsage where
  id : Option Int
  account_id : String
  model_name : String
  timestamp : Int
  tokens_input : Int
  tokens_output : Int
  cost_usd : ℚ
  request_count : Int
  deriving Repr, DecidableEq

/-- The durable state the aggregator touches: the accounts table (read, and
written only through update_account_sync_time) and the two append-only
usage tables. -/
structure Db where
  accounts : List Account
  quota_snapshots : List QuotaSnapshot
  model_usage : List ModelUsage
  deriving Repr, DecidableEq

/-- aggregator.rs lines 83-93: the QuotaSnapshot row built from a QuotaData. -/
def snapshot_of (q : QuotaData) : QuotaSnapshot :=
  { id := none
    account_id := q.account_id
    timestamp := q.timestamp
    tokens_input := q.tokens_input
    tokens_output := q.tokens_output
    cost_usd := q.cost_usd
    quota_limit := q.quota_limit
    quota_remaining := q.quota_remaining
    metadata := q.metadata }

/-- aggregator.rs lines 99-108: the ModelUsage row built from one breakdown
entry of a QuotaData. -/
def usage_of (q : QuotaData) (m : ModelData) : ModelUsage :=
  { id := none
    account_id := q.account_id
    model_name := m.model_name
    timestamp := q.timestamp
    tokens_input := m.tokens_input
    tokens_output := m.tokens_output
    cost_usd := m.cost_usd
    request_count := m.request_count }

/-- db/repository.rs update_account_sync_time: set last_synced on the
matching account row. -/
def update_account_sync_time (db : Db) (account_id : String) (t : Int) : Db :=
  { db with
    accounts := db.accounts.map fun a =>
      if a.id == account_id then { a with last_synced := some t } else a }

/-! ## services/aggregator.rs -/

/-- A provider of the registry (providers/mod.rs QuotaProvider): only the
fetch_quota capability matters to the aggregator.  The outcome of the
network call this cycle is supplied by the environment. -/
structure Provider where
  fetch_quota : Credentials → Except QuonitorError QuotaData

/-- Environment of one aggregator call: the provider registry (with each
behaviour of each provider this cycle), the crypto service, the external JSON
parse of the credentials (serde_json, modelled by its outcome), a per-write
success oracle (account id and the index of the durable write within the
fetch_account_quota call: 0 is the snapshot insert, 1..n the model-usage
inserts, n+1 the sync-time update), and the current UTC timestamp. -/
structure AggEnv where
  registry : String → Option Provider
  crypto : CryptoModel
  parse_credentials : String → Option Credentials
  write_ok : String → Nat → Bool
  now : Int

/-- One repo.insert_quota_snapshot call, guarded by the write oracle. -/
def repo_insert_quota_snapshot (ok : Bool) (db : Db) (s : QuotaSnapshot) :
    Db × Except QuonitorError Unit :=
  if ok then ({ db with quota_snapshots := db.quota_snapshots ++ [s] }, .ok ())
  else (db, .error (.Database "insert quota snapshot failed"))

/-- The loop of aggregator.rs lines 98-111: insert one ModelUsage row per
breakdown entry, in order, stopping at the first failing insert.  k is the
index of the next durable write. -/
def insert_usage_rows (env : AggEnv) (q : QuotaData) (db : Db)
    (models : List ModelData) (k : Nat) : Db × Except QuonitorError Unit :=
  match models with
  | [] => (db, .ok ())
  | m :: rest =>
      if env.write_ok q.account_id k then
        insert_usage_rows env q
          { db with model_usage := db.model_usage ++ [usage_of q m] } rest (k + 1)
      else (db, .error (.Database "insert model usage failed"))

/-- aggregator.rs Aggregator::store_quota (lines 81-114): insert the
account-level snapshot, then one model-usage row per breakdown entry. -/
def store_quota (env : AggEnv) (db : Db) (q : QuotaData) :
    Db × Except QuonitorError Unit :=
  match repo_insert_quota_snapshot (env.write_ok q.account_id 0) db (snapshot_of q) with
  | (_, .error e) => (db, .error e)
  | (db1, .ok _) => insert_usage_rows env q db1 q.model_breakdown 1

/-- The stages of aggregator.rs fetch_account_quota before any durable
write (lines 56-68): load the account, resolve the provider, decrypt and
deserialize the credentials, invoke the provider, stamp the account id. -/
def resolve_quota (env : AggEnv) (db : Db) (account_id : String) :
    Except QuonitorError QuotaData :=
  match db.accounts.find? (fun a => a.id == account_id) with
  | none => .error (.Config ("Account " ++ account_id ++ " not found"))
  | some account =>
      match env.registry account.provider with
      | none => .error (.Config ("Provider " ++ account.provider ++ " not found"))
      | some provider =>
          match CryptoService.decrypt env.crypto account.credentials_encrypted with
          | .error e => .error e
          | .ok creds_json =>
              match env.parse_credentials creds_json with
              | none => .error (.Serialization "invalid credentials JSON")
              | some credentials =>
                  match provider.fetch_quota credentials with
                  | .error e => .error e
                  | .ok q => .ok { q with account_id := account_id }

/-- aggregator.rs Aggregator::fetch_account_quota (lines 55-79): resolve and
fetch, then persist via store_quota and update the sync time of the account.
Returns the durable state after the call together with the outcome; every
early error leaves the state it was handed. -/
def fetch_account_quota (env : AggEnv) (db : Db) (account_id : String) :
    Db × Except QuonitorError QuotaData :=
  match resolve_quota env db account_id with
  | .error e => (db, .error e)
  | .ok quota =>
      match store_quota env db quota with
      | (db1, .error e) => (db1, .error e)
      | (db1, .ok _) =>
          if env.write_ok account_id (quota.model_breakdown.length + 1) then
            (update_account_sync_time db1 account_id env.now, .ok quota)
          else (db1, .error (.Database "update sync time failed"))

/-- The loop of aggregator.rs fetch_all_quotas (lines 35-42): fetch each
account in turn, keeping the successes and skipping (only logging) the
failures, threading the durable state through. -/
def process_accounts (env : AggEnv) (db : Db) (accounts : List Account) :
    Db × List QuotaData :=
  match accounts with
  | [] => (db, [])
  | a :: rest =>
      match fetch_account_quota env db a.id with
      | (db1, .ok q) =>
          let (db2, qs) := process_accounts env db1 rest
          (db2, q :: qs)
      | (db1, .error _) => process_accounts env db1 rest

/-- aggregator.rs Aggregator::fetch_all_quotas (lines 24-45).  The
get_all_accounts read is modelled as the accounts table itself (a failing
read returns an empty batch in the source and touches nothing, which the
empty-accounts case already covers). -/
def fetch_all_quotas (env : AggEnv) (db : Db) : Db × List QuotaData :=
  process_accounts env db db.accounts

/-- The per-account outcome trace of one fetch_all_quotas batch: the result
of fetch_account_quota for each registered account, in order, under the
same threading of durable state as fetch_all_quotas. -/
def fetch_trace (env : AggEnv) (db : Db) (accounts : List Account) :
    List (Except QuonitorError QuotaData) :=
  match accounts with
  | [] => []
  | a :: rest =>
      match fetch_account_quota env db a.id with
      | (db1, r) => r :: fetch_trace env db1 rest

/-! ## A concrete CryptoModel for evaluating the development on closed inputs -/

/-- Demo AEAD encryption: append the tag byte 7. -/
def demo_aead_enc (_nonce plaintext : List Nat) : Option (List Nat) :=
  some (plaintext ++ [7])

/-- Demo AEAD decryption: accept exactly the lists ending in the tag byte 7. -/
def demo_aead_dec (_nonce ciphertext : List Nat) : Option (List Nat) :=
  if ciphertext.getLast? = some 7 then some ciphertext.dropLast else none

/-- Demo codec encoding: characters to their scalar values. -/
def demo_encode (s : String) : List Nat := s.data.map Char.toNat

/-- Demo codec decoding: accept exactly the lists the encoding can produce. -/
def demo_decode (l : List Nat) : Option String :=
  if (String.mk (l.map Char.ofNat)).data.map Char.toNat = l then
    some (String.mk (l.map Char.ofNat))
  else none

/-- A concrete CryptoModel satisfying the external-library contracts, used
to evaluate the development on closed inputs. -/
def demo_crypto : CryptoModel where
  aead_encrypt := demo_aead_enc
  aead_decrypt := demo_aead_dec
  utf8_encode := demo_encode
  utf8_decode := demo_decode
  aead_enc_dec := by
    intro n p c h
    cases h
    simp [demo_aead_dec]
  aead_dec_enc := by
    intro n c p h
    unfold demo_aead_dec at h
    split at h
    case isTrue hc =>
      cases h
      have hne : c ≠ [] := by
        intro he
        rw [he] at hc
        simp at hc
      have hg : c.getLast hne = 7 := by
        have h2 := List.getLast?_eq_getLast c hne
        rw [h2] at hc
        exact Option.some.inj hc
      have h3 := List.dropLast_concat_getLast hne
      rw [hg] at h3
      simp [demo_aead_enc, h3]
    case isFalse => cases h
  utf8_round := by
    intro s
    have hmap : List.map Char.ofNat (List.map Char.toNat s.data) = s.data := by
      rw [List.map_map]
      exact List.map_id'' (fun c => Char.ofNat_toNat c) s.data
    simp [demo_decode, demo_encode, hmap]
  utf8_decode_encode := by
    intro l s h
    unfold demo_decode at h
    split at h
    case isTrue hc =>
      cases h
      exact hc
    case isFalse => cases h

/-! ## Concrete fixtures for evaluating the development on closed inputs -/

/-- An account at 95 percent usage: limit 1000, remaining 50. -/
def demo_q95 : QuotaData :=
  ⟨"acct1", 0, none, none, none, some 1000, some 50, [], none⟩

/-- An account at 96 percent usage: limit 100, remaining 4. -/
def demo_q96 : QuotaData :=
  ⟨"acct1", 0, none, none, none, some 100, some 4, [], none⟩

/-- A check environment with default settings, no quiet hours, local hour
12, check time 1000, no stored notification state. -/
def demo_env_first : NotifierEnv := ⟨none, none, none, 12, 1000, none⟩

/-- The notification state persisted by the 95-percent fire at time 1000. -/
def demo_state95 : NotificationState := ⟨"acct1", none, none, some 1000⟩

/-- A second check 500 seconds later, with the stored state of the fire. -/
def demo_env_second : NotifierEnv := ⟨none, none, none, 12, 1500, some demo_state95⟩

/-- A check environment for the 96-percent example, no prior state. -/
def demo_env_96 : NotifierEnv := ⟨none, none, none, 12, 777, none⟩

/-- A check environment inside the quiet-hours window 22 to 6, hour 23. -/
def demo_env_quiet : NotifierEnv := ⟨none, some "22", some "6", 23, 0, none⟩

/-- A model breakdown entry. -/
def demo_model : ModelData := ⟨"m1", 1, 2, 3, 4⟩

/-- The quota a provider returns: account id still empty, one breakdown
entry. -/
def demo_quota0 : QuotaData :=
  ⟨"", 5, none, none, none, some 1000, some 50, [demo_model], none⟩

/-- demo_quota0 after the aggregator stamps the account id. -/
def demo_quota1 : QuotaData := { demo_quota0 with account_id := "a1" }

/-- A provider whose fetch succeeds with demo_quota0. -/
def demo_provider : Provider := ⟨fun _ => .ok demo_quota0⟩

/-- Concrete credentials. -/
def demo_creds : Credentials := ⟨some "k", none, none⟩

/-- An account whose encrypted credentials decrypt (under demo_crypto) to
the string x. -/
def demo_account : Account := ⟨"a1", "openai", "acct", demo_encode "x" ++ [7], 0, none⟩

/-- An empty durable store. -/
def empty_db : Db := ⟨[], [], []⟩

/-- A store holding just demo_account. -/
def demo_db1 : Db := ⟨[demo_account], [], []⟩

/-- An aggregator environment with an empty registry: every account lookup
or provider resolution fails before persistence. -/
def demo_env_fail : AggEnv where
  registry := fun _ => none
  crypto := demo_crypto
  parse_credentials := fun _ => none
  write_ok := fun _ _ => true
  now := 0

/-- An aggregator environment where the fetch pipeline succeeds but only
the first durable write (the snapshot insert) is allowed: the first
model-usage insert fails. -/
def demo_env_halfway : AggEnv where
  registry := fun p => if p = "openai" then some demo_provider else none
  crypto := demo_crypto
  parse_credentials := fun s => if s = "x" then some demo_creds else none
  write_ok := fun _ k => k == 0
  now := 99

/-! ## Theorems -/

/-- check_and_notify in closed form: skip when disabled, quiet, or no
percentage; otherwise fire the highest qualifying tier (if any) and persist
the correspondingly stamped state. -/
theorem check_and_notify_eq (env : NotifierEnv) (q : QuotaData) :
    check_and_notify env q =
      if env.notifications_enabled.getD "true" ≠ "true" then ⟨none, none⟩
      else if is_quiet_hours env.quiet_hours_start env.quiet_hours_end env.current_hour then
        ⟨none, none⟩
      else
        match calculate_usage_percentage q with
        | none => ⟨none, none⟩
        | some p =>
            ⟨fired_tier p (initial_state env q) env.now,
             some (stamp_tier (fired_tier p (initial_state env q) env.now) env.now
               (initial_state env q))⟩ := by
  unfold check_and_notify
  cases hp : calculate_usage_percentage q with
  | none => simp only [hp]
  | some p =>
      simp only [hp, fired_tier]
      split_ifs <;> rfl

/-- fired_tier returns the 95 tier exactly when that tier qualifies. -/
theorem fired_tier_t95_iff (p : ℚ) (s : NotificationState) (now : Int) :
    fired_tier p s now = some Tier.t95 ↔
      (p ≥ 95 ∧ should_notify_threshold s.last_95_percent_notified (now - 86400) = true) := by
  unfold fired_tier
  split_ifs with c95 c90 c75 <;> simp_all

/-- fired_tier returns the 90 tier exactly when the 95 tier does not
qualify and the 90 tier does. -/
theorem fired_tier_t90_iff (p : ℚ) (s : NotificationState) (now : Int) :
    fired_tier p s now = some Tier.t90 ↔
      (¬(p ≥ 95 ∧ should_notify_threshold s.last_95_percent_notified (now - 86400) = true) ∧
       (p ≥ 90 ∧ should_notify_threshold s.last_90_percent_notified (now - 86400) = true)) := by
  unfold fired_tier
  split_ifs with c95 c90 c75 <;> simp_all

/-- fired_tier returns the 75 tier exactly when neither higher tier
qualifies and the 75 tier does. -/
theorem fired_tier_t75_iff (p : ℚ) (s : NotificationState) (now : Int) :
    fired_tier p s now = some Tier.t75 ↔
      (¬(p ≥ 95 ∧ should_notify_threshold s.last_95_percent_notified (now - 86400) = true) ∧
       ¬(p ≥ 90 ∧ should_notify_threshold s.last_90_percent_notified (now - 86400) = true) ∧
       (p ≥ 75 ∧ should_notify_threshold s.last_75_percent_notified (now - 86400) = true)) := by
  unfold fired_tier
  split_ifs with c95 c90 c75 <;> simp_all

/-- fired_tier returns no tier exactly when no tier qualifies. -/
theorem fired_tier_none_iff (p : ℚ) (s : NotificationState) (now : Int) :
    fired_tier p s now = none ↔
      (¬(p ≥ 95 ∧ should_notify_threshold s.last_95_percent_notified (now - 86400) = true) ∧
       ¬(p ≥ 90 ∧ should_notify_threshold s.last_90_percent_notified (now - 86400) = true) ∧
       ¬(p ≥ 75 ∧ should_notify_threshold s.last_75_percent_notified (now - 86400) = true)) := by
  unfold fired_tier
  split_ifs with c95 c90 c75 <;> simp_all

/-- C1: the usage percentage is (limit - remaining) / limit * 100 exactly
when both bounds are present and the limit is positive, the check is a
no-op when no percentage can be determined, and the concrete account with
limit 1000 / remaining 50 (notifications enabled, outside quiet hours, no
prior state) computes 95 percent, fires the 95 tier, and persists a state
row whose last_95_percent_notified is the check time. -/
theorem usage_percentage_spec :
    (∀ (q : QuotaData) (lim rem : Int),
      q.quota_limit = some lim → q.quota_remaining = some rem → 0 < lim →
      calculate_usage_percentage q =
        some (((lim : ℚ) - (rem : ℚ)) / (lim : ℚ) * 100)) ∧
    (∀ (q : QuotaData),
      (q.quota_limit = none ∨ q.quota_remaining = none ∨
        ∃ lim, q.quota_limit = some lim ∧ ¬0 < lim) →
      calculate_usage_percentage q = none) ∧
    (∀ (env : NotifierEnv) (q : QuotaData),
      calculate_usage_percentage q = none →
      check_and_notify env q = ⟨none, none⟩) ∧
    (∀ (env : NotifierEnv) (q : QuotaData),
      q.quota_limit = some 1000 → q.quota_remaining = some 50 →
      env.notifications_enabled.getD "true" = "true" →
      is_quiet_hours env.quiet_hours_start env.quiet_hours_end env.current_hour = false →
      env.stored_state = none →
      calculate_usage_percentage q = some 95 ∧
      (check_and_notify env q).fired = some Tier.t95 ∧
      (check_and_notify env q).persisted =
        some ⟨q.account_id, none, none, some env.now⟩) := by
  refine ⟨?_, ?_, ?_, ?_⟩
  · intro q lim rem h1 h2 h3
    have hc : ((lim - rem : ℤ) : ℚ) = (lim : ℚ) - (rem : ℚ) := by push_cast; ring
    simp [calculate_usage_percentage, h1, h2, h3, hc]
  · intro q h
    rcases h with h | h | ⟨lim, h1, h2⟩
    · simp [calculate_usage_percentage, h]
    · cases hl : q.quota_limit <;> simp [calculate_usage_percentage, h, hl]
    · cases hr : q.quota_remaining <;> simp [calculate_usage_percentage, h1, hr, h2]
  · intro env q h
    rw [check_and_notify_eq, h]
    split_ifs <;> rfl
  · intro env q h1 h2 hen hq hs
    have hp : calculate_usage_percentage q = some 95 := by
      simp [calculate_usage_percentage, h1, h2]
      norm_num
    refine ⟨hp, ?_, ?_⟩ <;>
      rw [check_and_notify_eq] <;>
      simp [hen, hq, hp, initial_state, hs, fired_tier, stamp_tier, should_notify_threshold]

/-- C1 witness: the concrete 95-percent account under the concrete default
environment computes percentage 95, fires the 95 tier, and persists the
stamped state row. -/
theorem usage_percentage_spec_witness :
    calculate_usage_percentage demo_q95 = some 95 ∧
    (check_and_notify demo_env_first demo_q95).fired = some Tier.t95 ∧
    (check_and_notify demo_env_first demo_q95).persisted =
      some ⟨demo_q95.account_id, none, none, some demo_env_first.now⟩ :=
  usage_percentage_spec.2.2.2 demo_env_first demo_q95 rfl rfl rfl rfl rfl

/-- C8: with the window start 22 / end 6 the quiet check is true exactly
for local hours 22, 23 and 0 through 5 (in both the bare and the HH:MM
setting spellings); a quiet environment with notifications enabled makes
check_and_notify a no-op; and a malformed or absent window is never
quiet. -/
theorem quiet_hours_window :
    (∀ h : Nat, h < 24 →
      (is_quiet_hours (some "22") (some "6") h = true ↔
        h ∈ ([22, 23, 0, 1, 2, 3, 4, 5] : List Nat))) ∧
    (∀ h : Nat, h < 24 →
      (is_quiet_hours (some "22:00") (some "06:00") h = true ↔
        h ∈ ([22, 23, 0, 1, 2, 3, 4, 5] : List Nat))) ∧
    (∀ (env : NotifierEnv) (q : QuotaData),
      is_quiet_hours env.quiet_hours_start env.quiet_hours_end env.current_hour = true →
      env.notifications_enabled.getD "true" = "true" →
      check_and_notify env q = ⟨none, none⟩) ∧
    (∀ (s e : String) (h : Nat),
      parse_hour s = none → is_quiet_hours (some s) (some e) h = false) ∧
    (∀ (s e : String) (h : Nat),
      parse_hour e = none → is_quiet_hours (some s) (some e) h = false) ∧
    (∀ (e : Option String) (h : Nat), is_quiet_hours none e h = false) ∧
    (∀ (s : Option String) (h : Nat), is_quiet_hours s none h = false) := by
  refine ⟨by decide, by decide, ?_, ?_, ?_, ?_, ?_⟩
  · intro env q hq hen
    rw [check_and_notify_eq]
    simp [hen, hq]
  · intro s e h hp
    simp only [is_quiet_hours, hp]
    split_ifs <;> rfl
  · intro s e h hp
    simp only [is_quiet_hours, hp]
    split_ifs with hne
    · cases hps : parse_hour s <;> rfl
    · rfl
  · intro e h
    rfl
  · intro s h
    cases s <;> rfl

/-- C8 witness: at local hour 23 inside the concrete 22-to-6 window, with
notifications enabled, the check is suppressed. -/
theorem quiet_hours_window_witness :
    check_and_notify demo_env_quiet demo_q95 = ⟨none, none⟩ :=
  quiet_hours_window.2.2.1 demo_env_quiet demo_q95 (by decide) rfl

/-- C4: once a check fires the 95 tier at time now1 and its state row is
persisted, a later check before now1 + 24h on the same quota (hence the
same percentage) that starts from that row does not fire the 95 tier
again. -/
theorem debounce_95_no_refire (env1 : NotifierEnv) (q : QuotaData) (s : NotificationState)
    (h1 : (check_and_notify env1 q).fired = some Tier.t95)
    (h2 : (check_and_notify env1 q).persisted = some s)
    (env2 : NotifierEnv)
    (hs : env2.stored_state = some s)
    (hnow : env2.now < env1.now + 86400) :
    (check_and_notify env2 q).fired ≠ some Tier.t95 := by
  rw [check_and_notify_eq] at h1 h2
  by_cases he1 : env1.notifications_enabled.getD "true" ≠ "true"
  · rw [if_pos he1] at h1
    simp at h1
  rw [if_neg he1] at h1 h2
  by_cases hq1 : is_quiet_hours env1.quiet_hours_start env1.quiet_hours_end env1.current_hour
  · rw [if_pos hq1] at h1
    simp at h1
  rw [if_neg hq1] at h1 h2
  cases hp : calculate_usage_percentage q with
  | none =>
      rw [hp] at h1
      simp at h1
  | some p =>
      rw [hp] at h1 h2
      replace h1 : fired_tier p (initial_state env1 q) env1.now = some Tier.t95 := h1
      have hstamp :
          stamp_tier (fired_tier p (initial_state env1 q) env1.now) env1.now
            (initial_state env1 q) = s := by
        have h2' :
            some (stamp_tier (fired_tier p (initial_state env1 q) env1.now) env1.now
              (initial_state env1 q)) = some s := h2
        exact Option.some.inj h2'
      rw [h1] at hstamp
      have hs95 : s.last_95_percent_notified = some env1.now := by
        rw [← hstamp]
        rfl
      rw [check_and_notify_eq]
      split_ifs with he2 hq2
      · simp
      · simp
      · rw [hp]
        intro hcon
        replace hcon : fired_tier p (initial_state env2 q) env2.now = some Tier.t95 := hcon
        have hs0 : initial_state env2 q = s := by
          simp [initial_state, hs]
        rw [hs0] at hcon
        have hc := (fired_tier_t95_iff p s env2.now).mp hcon
        rw [hs95] at hc
        have hlt : env1.now < env2.now - 86400 := by
          have := hc.2
          simp [should_notify_threshold] at this
          exact this
        omega

/-- C4 witness helper: the concrete first check fires the 95 tier at time
1000 and persists the stamped row. -/
theorem demo_first_fire :
    check_and_notify demo_env_first demo_q95 = ⟨some Tier.t95, some demo_state95⟩ := by
  have hqn : is_quiet_hours none none 12 = false := rfl
  rw [check_and_notify_eq]
  norm_num [demo_env_first, demo_q95, demo_state95, calculate_usage_percentage,
    initial_state, fired_tier, should_notify_threshold, stamp_tier, hqn]

/-- C4 witness: after the concrete fire at time 1000, the check at time
1500 on the same quota does not fire the 95 tier again. -/
theorem debounce_95_no_refire_witness :
    (check_and_notify demo_env_second demo_q95).fired ≠ some Tier.t95 :=
  debounce_95_no_refire demo_env_first demo_q95 demo_state95
    (by rw [demo_first_fire]) (by rw [demo_first_fire]) demo_env_second rfl (by decide)

/-- C6: whenever a check reaches tier evaluation, the persisted row is the
working state with exactly the fired tier (if any) stamped to the check
time, and the fired tier is precisely the highest tier whose threshold the
percentage meets and whose stamp is absent or older than 24 hours; in
particular 96 percent with no prior notifications fires exactly the 95
tier. -/
theorem highest_tier_only :
    (∀ (env : NotifierEnv) (q : QuotaData) (p : ℚ),
      env.notifications_enabled.getD "true" = "true" →
      is_quiet_hours env.quiet_hours_start env.quiet_hours_end env.current_hour = false →
      calculate_usage_percentage q = some p →
      (check_and_notify env q).persisted =
        some (stamp_tier (check_and_notify env q).fired env.now (initial_state env q)) ∧
      ((check_and_notify env q).fired = some Tier.t95 ↔
        (p ≥ 95 ∧ should_notify_threshold
          (initial_state env q).last_95_percent_notified (env.now - 86400) = true)) ∧
      ((check_and_notify env q).fired = some Tier.t90 ↔
        (¬(p ≥ 95 ∧ should_notify_threshold
            (initial_state env q).last_95_percent_notified (env.now - 86400) = true) ∧
         (p ≥ 90 ∧ should_notify_threshold
            (initial_state env q).last_90_percent_notified (env.now - 86400) = true))) ∧
      ((check_and_notify env q).fired = some Tier.t75 ↔
        (¬(p ≥ 95 ∧ should_notify_threshold
            (initial_state env q).last_95_percent_notified (env.now - 86400) = true) ∧
         ¬(p ≥ 90 ∧ should_notify_threshold
            (initial_state env q).last_90_percent_notified (env.now - 86400) = true) ∧
         (p ≥ 75 ∧ should_notify_threshold
            (initial_state env q).last_75_percent_notified (env.now - 86400) = true))) ∧
      ((check_and_notify env q).fired = none ↔
        (¬(p ≥ 95 ∧ should_notify_threshold
            (initial_state env q).last_95_percent_notified (env.now - 86400) = true) ∧
         ¬(p ≥ 90 ∧ should_notify_threshold
            (initial_state env q).last_90_percent_notified (env.now - 86400) = true) ∧
         ¬(p ≥ 75 ∧ should_notify_threshold
            (initial_state env q).last_75_percent_notified (env.now - 86400) = true)))) ∧
    (∀ (env : NotifierEnv) (q : QuotaData),
      q.quota_limit = some 100 → q.quota_remaining = some 4 →
      env.notifications_enabled.getD "true" = "true" →
      is_quiet_hours env.quiet_hours_start env.quiet_hours_end env.current_hour = false →
      env.stored_state = none →
      (check_and_notify env q).fired = some Tier.t95 ∧
      (check_and_notify env q).persisted =
        some ⟨q.account_id, none, none, some env.now⟩) := by
  constructor
  · intro env q p hen hq hp
    have he : check_and_notify env q =
        ⟨fired_tier p (initial_state env q) env.now,
         some (stamp_tier (fired_tier p (initial_state env q) env.now) env.now
           (initial_state env q))⟩ := by
      rw [check_and_notify_eq]
      simp [hen, hq, hp]
    rw [he]
    exact ⟨rfl, fired_tier_t95_iff p (initial_state env q) env.now,
      fired_tier_t90_iff p (initial_state env q) env.now,
      fired_tier_t75_iff p (initial_state env q) env.now,
      fired_tier_none_iff p (initial_state env q) env.now⟩
  · intro env q h1 h2 hen hq hs
    have hp : calculate_usage_percentage q = some 96 := by
      simp [calculate_usage_percentage, h1, h2]
      try norm_num
    rw [check_and_notify_eq]
    norm_num [hen, hq, hp, initial_state, hs, fired_tier, should_notify_threshold,
      stamp_tier]

/-- C6 witness: the concrete 96-percent account with no prior state fires
exactly the 95 tier and persists only that stamp. -/
theorem highest_tier_only_witness :
    (check_and_notify demo_env_96 demo_q96).fired = some Tier.t95 ∧
    (check_and_notify demo_env_96 demo_q96).persisted =
      some ⟨demo_q96.account_id, none, none, some demo_env_96.now⟩ :=
  highest_tier_only.2 demo_env_96 demo_q96 rfl rfl rfl rfl rfl

/-- C3: decrypt inverts encrypt — both use the same fixed zero nonce, so
whenever encrypt succeeds on a plaintext, decrypt on the produced
ciphertext succeeds and returns exactly that plaintext. -/
theorem cipher_round_trip (m : CryptoModel) (P : String) (c : List Nat)
    (h : CryptoService.encrypt m P = .ok c) :
    CryptoService.decrypt m c = .ok P := by
  unfold CryptoService.encrypt at h
  cases he : m.aead_encrypt zero_nonce (m.utf8_encode P) with
  | none =>
      rw [he] at h
      cases h
  | some ct =>
      rw [he] at h
      cases h
      unfold CryptoService.decrypt
      simp only [m.aead_enc_dec _ _ _ he, m.utf8_round]

/-- C3 witness: round trip on a concrete plaintext under the concrete
cipher. -/
theorem cipher_round_trip_witness :
    CryptoService.decrypt demo_crypto [107, 7] = .ok "k" :=
  cipher_round_trip demo_crypto "k" [107, 7] (by rfl)

/-- C7: encryption is deterministic — an invocation ignores whatever fresh
randomness is available, and every successful encryption is the AEAD
applied at the fixed all-zero 12-byte nonce. -/
theorem encrypt_fixed_nonce_deterministic :
    (∀ (m : CryptoModel) (r1 r2 : List Nat) (P : String),
      encrypt_invocation m r1 P = encrypt_invocation m r2 P) ∧
    (∀ (m : CryptoModel) (r : List Nat) (P : String) (c : List Nat),
      encrypt_invocation m r P = .ok c →
      m.aead_encrypt (List.replicate 12 0) (m.utf8_encode P) = some c) := by
  constructor
  · intro m r1 r2 P
    rfl
  · intro m r P c h
    unfold encrypt_invocation CryptoService.encrypt at h
    cases he : m.aead_encrypt zero_nonce (m.utf8_encode P) with
    | none =>
        rw [he] at h
        cases h
    | some ct =>
        rw [he] at h
        cases h
        exact he

/-- C7 witness: two concrete invocations with different fresh randomness
agree, and the concrete ciphertext is the AEAD output at the zero nonce. -/
theorem encrypt_fixed_nonce_deterministic_witness :
    encrypt_invocation demo_crypto [1] "k" = encrypt_invocation demo_crypto [2] "k" ∧
    demo_crypto.aead_encrypt (List.replicate 12 0) (demo_crypto.utf8_encode "k") =
      some [107, 7] :=
  ⟨encrypt_fixed_nonce_deterministic.1 demo_crypto [1] [2] "k",
   encrypt_fixed_nonce_deterministic.2 demo_crypto [1] "k" [107, 7] (by rfl)⟩

/-- C9: an input that is not a ciphertext the AEAD can produce under the
process key and the fixed nonce makes decrypt fail with a typed Encryption
error; and decrypt never returns garbled plaintext — a successful decrypt
means the input is exactly the encryption of the returned plaintext. -/
theorem decrypt_rejects_invalid :
    (∀ (m : CryptoModel) (c : List Nat),
      (∀ p, m.aead_encrypt zero_nonce p ≠ some c) →
      CryptoService.decrypt m c = .error (.Encryption "Decryption failed")) ∧
    (∀ (m : CryptoModel) (c : List Nat) (s : String),
      CryptoService.decrypt m c = .ok s →
      CryptoService.encrypt m s = .ok c) := by
  constructor
  · intro m c h
    unfold CryptoService.decrypt
    cases hd : m.aead_decrypt zero_nonce c with
    | none => rfl
    | some pt => exact absurd (m.aead_dec_enc _ _ _ hd) (h pt)
  · intro m c s h
    unfold CryptoService.decrypt at h
    cases hd : m.aead_decrypt zero_nonce c with
    | none =>
        rw [hd] at h
        cases h
    | some pt =>
        rw [hd] at h
        cases hu : m.utf8_decode pt with
        | none =>
            simp only [hu] at h
            cases h
        | some s2 =>
            simp only [hu] at h
            cases h
            have henc := m.aead_dec_enc _ _ _ hd
            have hpt := m.utf8_decode_encode _ _ hu
            unfold CryptoService.encrypt
            rw [hpt, henc]

/-- C9 witness: the concrete list [1] is no demo-cipher ciphertext and is
rejected with the Encryption error; the concrete valid ciphertext decrypts
back to exactly its plaintext source. -/
theorem decrypt_rejects_invalid_witness :
    CryptoService.decrypt demo_crypto [1] = .error (.Encryption "Decryption failed") ∧
    CryptoService.encrypt demo_crypto "k" = .ok [107, 7] :=
  ⟨decrypt_rejects_invalid.1 demo_crypto [1]
      (by
        intro p hp
        have h2 : p ++ [7] = [1] := Option.some.inj hp
        cases p <;> simp_all),
   decrypt_rejects_invalid.2 demo_crypto [107, 7] "k" (by rfl)⟩

/-- Every registered account gets exactly one per-account outcome in a
batch. -/
theorem fetch_trace_length (env : AggEnv) :
    ∀ (accounts : List Account) (db : Db),
      (fetch_trace env db accounts).length = accounts.length := by
  intro accounts
  induction accounts with
  | nil => intro db; rfl
  | cons a rest ih =>
      intro db
      cases hfa : fetch_account_quota env db a.id with
      | mk db1 r => simp [fetch_trace, hfa, ih]

/-- The batch result is the successes of the per-account outcome trace. -/
theorem process_accounts_eq_filter (env : AggEnv) :
    ∀ (accounts : List Account) (db : Db),
      (process_accounts env db accounts).2 =
        (fetch_trace env db accounts).filterMap Except.toOption := by
  intro accounts
  induction accounts with
  | nil => intro db; rfl
  | cons a rest ih =>
      intro db
      cases hfa : fetch_account_quota env db a.id with
      | mk db1 r =>
          cases r with
          | ok q =>
              have hrec := ih db1
              simp only [process_accounts, fetch_trace, hfa]
              cases hp : process_accounts env db1 rest with
              | mk db2 qs =>
                  rw [hp] at hrec
                  simp at hrec
                  simp [Except.toOption, hrec]
          | error e =>
              have hrec := ih db1
              simp only [process_accounts, fetch_trace, hfa]
              simp [Except.toOption, hrec]

/-- C2: fetch_all_quotas attempts every registered account (the outcome
trace has one entry per account) and returns exactly the QuotaData of the
accounts whose fetch succeeded this cycle — a failure for one account is
skipped and never aborts the batch for the others. -/
theorem fetch_all_isolates_failures (env : AggEnv) (db : Db) :
    (fetch_trace env db db.accounts).length = db.accounts.length ∧
    (fetch_all_quotas env db).2 =
      (fetch_trace env db db.accounts).filterMap Except.toOption :=
  ⟨fetch_trace_length env db.accounts db, process_accounts_eq_filter env db.accounts db⟩

/-- C5: a fetch that fails before persistence (missing account, unknown
provider, credential decryption or deserialization failure, provider
error) leaves the durable state exactly as it was and surfaces the
error. -/
theorem early_failure_leaves_state (env : AggEnv) (db : Db) (account_id : String)
    (e : QuonitorError) (h : resolve_quota env db account_id = .error e) :
    fetch_account_quota env db account_id = (db, .error e) := by
  unfold fetch_account_quota
  rw [h]

/-- C5 witness: fetching an account that does not exist leaves the empty
store untouched and reports the Config error. -/
theorem early_failure_leaves_state_witness :
    fetch_account_quota demo_env_fail empty_db "a1" =
      (empty_db, .error (.Config ("Account " ++ "a1" ++ " not found"))) :=
  early_failure_leaves_state demo_env_fail empty_db "a1"
    (.Config ("Account " ++ "a1" ++ " not found")) (by rfl)

/-- A successfully resolved quota carries the requested account id
(aggregator.rs line 68). -/
theorem resolve_quota_account_id (env : AggEnv) (db : Db) (id : String)
    (q : QuotaData) (h : resolve_quota env db id = .ok q) : q.account_id = id := by
  unfold resolve_quota at h
  split at h
  · cases h
  · split at h
    · cases h
    · split at h
      · cases h
      · split at h
        · cases h
        · split at h
          · cases h
          · cases h
            rfl

/-- Lemma: when every model-usage insert from index k on succeeds, the loop
appends exactly one row per breakdown entry, in order. -/
theorem insert_usage_rows_all_ok (env : AggEnv) (q : QuotaData) :
    ∀ (models : List ModelData) (k : Nat) (db : Db),
      (∀ i, i < models.length → env.write_ok q.account_id (k + i) = true) →
      insert_usage_rows env q db models k =
        ({ db with model_usage := db.model_usage ++ models.map (usage_of q) }, .ok ()) := by
  intro models
  induction models with
  | nil =>
      intro k db h
      simp [insert_usage_rows]
  | cons m rest ih =>
      intro k db h
      have h0 : env.write_ok q.account_id k = true := by
        have h1 := h 0 (by simp)
        simpa using h1
      have hrest : ∀ i, i < rest.length → env.write_ok q.account_id ((k + 1) + i) = true := by
        intro i hi
        have h2 := h (i + 1) (by simpa using Nat.succ_lt_succ hi)
        rw [show k + 1 + i = k + (i + 1) from by omega]
        exact h2
      have hrec := ih (k + 1)
        { db with model_usage := db.model_usage ++ [usage_of q m] } hrest
      simp [insert_usage_rows, h0, hrec, List.append_assoc]

/-- Lemma: when the inserts before index j succeed and the j-th fails, the
loop stops with exactly the first j rows appended and a Database error. -/
theorem insert_usage_rows_fail_at (env : AggEnv) (q : QuotaData) :
    ∀ (models : List ModelData) (k : Nat) (db : Db) (j : Nat),
      j < models.length →
      (∀ i, i < j → env.write_ok q.account_id (k + i) = true) →
      env.write_ok q.account_id (k + j) = false →
      insert_usage_rows env q db models k =
        ({ db with model_usage := db.model_usage ++ (models.take j).map (usage_of q) },
         .error (.Database "insert model usage failed")) := by
  intro models
  induction models with
  | nil =>
      intro k db j hj _ _
      exact absurd hj (by simp)
  | cons m rest ih =>
      intro k db j hj hok hfail
      cases j with
      | zero =>
          have h0 : env.write_ok q.account_id k = false := by simpa using hfail
          simp [insert_usage_rows, h0]
      | succ j2 =>
          have h0 : env.write_ok q.account_id k = true := by
            have h1 := hok 0 (Nat.succ_pos j2)
            simpa using h1
          have hok2 : ∀ i, i < j2 → env.write_ok q.account_id ((k + 1) + i) = true := by
            intro i hi
            have h2 := hok (i + 1) (Nat.succ_lt_succ hi)
            rw [show k + 1 + i = k + (i + 1) from by omega]
            exact h2
          have hfail2 : env.write_ok q.account_id ((k + 1) + j2) = false := by
            rw [show k + 1 + j2 = k + (j2 + 1) from by omega]
            exact hfail
          have hj2 : j2 < rest.length := by simpa using Nat.lt_of_succ_lt_succ hj
          have hrec := ih (k + 1)
            { db with model_usage := db.model_usage ++ [usage_of q m] } j2 hj2 hok2 hfail2
          simp [insert_usage_rows, h0, hrec, List.append_assoc]

/-- C10: within store_quota the snapshot is inserted before any model-usage
row and the rows go in sequentially, so a persistence failure leaves a
partial commit: a failing snapshot insert leaves the store untouched; a
failure at the j-th model-usage insert leaves the snapshot and the first j
rows committed; a failing sync-time update leaves the snapshot and all
rows committed with the sync time unchanged — and fetch_account_quota
reports the error in each case. -/
theorem persistence_incomplete_commit :
    (∀ (env : AggEnv) (db : Db) (id : String) (q : QuotaData),
      resolve_quota env db id = .ok q →
      env.write_ok id 0 = false →
      fetch_account_quota env db id =
        (db, .error (.Database "insert quota snapshot failed"))) ∧
    (∀ (env : AggEnv) (db : Db) (id : String) (q : QuotaData) (j : Nat),
      resolve_quota env db id = .ok q →
      env.write_ok id 0 = true →
      (∀ i, i < j → env.write_ok id (i + 1) = true) →
      j < q.model_breakdown.length →
      env.write_ok id (j + 1) = false →
      fetch_account_quota env db id =
        ({ db with
            quota_snapshots := db.quota_snapshots ++ [snapshot_of q],
            model_usage :=
              db.model_usage ++ (q.model_breakdown.take j).map (usage_of q) },
         .error (.Database "insert model usage failed"))) ∧
    (∀ (env : AggEnv) (db : Db) (id : String) (q : QuotaData),
      resolve_quota env db id = .ok q →
      env.write_ok id 0 = true →
      (∀ i, i < q.model_breakdown.length → env.write_ok id (i + 1) = true) →
      env.write_ok id (q.model_breakdown.length + 1) = false →
      fetch_account_quota env db id =
        ({ db with
            quota_snapshots := db.quota_snapshots ++ [snapshot_of q],
            model_usage := db.model_usage ++ q.model_breakdown.map (usage_of q) },
         .error (.Database "update sync time failed"))) := by
  refine ⟨?_, ?_, ?_⟩
  · intro env db id q hres h0
    have hid : q.account_id = id := resolve_quota_account_id env db id q hres
    simp only [fetch_account_quota, hres]
    simp only [store_quota, repo_insert_quota_snapshot, hid, h0]
    simp
  · intro env db id q j hres h0 hok hj hfail
    have hid : q.account_id = id := resolve_quota_account_id env db id q hres
    have hok2 : ∀ i, i < j → env.write_ok q.account_id (1 + i) = true := by
      intro i hi
      rw [hid, Nat.add_comm]
      exact hok i hi
    have hfail2 : env.write_ok q.account_id (1 + j) = false := by
      rw [hid, Nat.add_comm]
      exact hfail
    have hrows := insert_usage_rows_fail_at env q q.model_breakdown 1
      { db with quota_snapshots := db.quota_snapshots ++ [snapshot_of q] } j hj hok2 hfail2
    simp only [fetch_account_quota, hres]
    simp only [store_quota, repo_insert_quota_snapshot, hid, h0]
    simp [hrows]
  · intro env db id q hres h0 hok hfail
    have hid : q.account_id = id := resolve_quota_account_id env db id q hres
    have hok2 : ∀ i, i < q.model_breakdown.length →
        env.write_ok q.account_id (1 + i) = true := by
      intro i hi
      rw [hid, Nat.add_comm]
      exact hok i hi
    have hrows := insert_usage_rows_all_ok env q q.model_breakdown 1
      { db with quota_snapshots := db.quota_snapshots ++ [snapshot_of q] } hok2
    simp only [fetch_account_quota, hres]
    simp only [store_quota, repo_insert_quota_snapshot, hid, h0]
    simp [hrows, hfail]

/-- C10 witness: for the concrete account whose snapshot insert succeeds
and whose first model-usage insert fails, the snapshot alone is committed
and the call reports the Database error. -/
theorem persistence_incomplete_commit_witness :
    fetch_account_quota demo_env_halfway demo_db1 "a1" =
      ({ demo_db1 with
          quota_snapshots := demo_db1.quota_snapshots ++ [snapshot_of demo_quota1],
          model_usage :=
            demo_db1.model_usage ++
              (demo_quota1.model_breakdown.take 0).map (usage_of demo_quota1) },
       .error (.Database "insert model usage failed")) :=
  persistence_incomplete_commit.2.1 demo_env_halfway demo_db1 "a1" demo_quota1 0
    (by rfl) (by rfl) (fun i hi => absurd hi (Nat.not_lt_zero i)) (by decide) (by rfl)

end Quonitor
